import Mathlib

/-
  Verification of the Dyad (9pros/dyad-new) Qwen OAuth device-authorization
  flow and the Action Validator path rules, as a shallow embedding.

  Sources embedded:
  - src/ipc/handlers/qwen_oauth_handlers.ts : PKCE verifier/challenge
    generation, the device-code request body, the token request body and
    the token-handler HTTP error dispatch.
  - the current QwenOAuthDialog component (pollForToken): the polling
    state machine with expiry check, "authorization_pending", "slow_down",
    "access_denied", "expired_token", network-transient retry, and the
    success branch that builds the stored credential.
  - The Action Validator path check is not present under src/ (only the
    blueprint describes the validation step), so it is modelled from the
    specification text.

  JavaScript machine integers are exact doubles in the ranges used here;
  times are modelled as Nat milliseconds, byte values as Nat below 256,
  32-bit words as Nat reduced modulo 2 ^ 32.
-/

/-! ## Constants from qwen_oauth_handlers.ts -/

def QWEN_DEVICE_CODE_URL : String := "https://chat.qwen.ai/api/v1/oauth2/device/code"

def QWEN_TOKEN_URL : String := "https://chat.qwen.ai/api/v1/oauth2/token"

def QWEN_CLIENT_ID : String := "f0304373b74a44d2b584a3fb70ca9e56"

def QWEN_SCOPE : String := "openid profile email model.completion"

def dashScopeUrl : String := "https://dashscope.aliyuncs.com/api/v1/"

/-! ## btoa (standard base64 of a byte sequence) and the base64url
    post-processing the source applies with three chained replaces. -/

def base64Alphabet : List Char :=
  "ABCDEFGHIJKLMNOPQRSTUVWXYZabcdefghijklmnopqrstuvwxyz0123456789+/".toList

def base64Char (n : Nat) : Char := base64Alphabet.getD n 'A'

/-- btoa of a latin1 string holding the given byte values (the source calls
btoa on String.fromCharCode of the byte array). -/
def btoa : List Nat → List Char
  | [] => []
  | [b0] => [base64Char (b0 / 4), base64Char (b0 % 4 * 16), '=', '=']
  | [b0, b1] => [base64Char (b0 / 4), base64Char (b0 % 4 * 16 + b1 / 16),
      base64Char (b1 % 16 * 4), '=']
  | b0 :: b1 :: b2 :: rest =>
      base64Char (b0 / 4) :: base64Char (b0 % 4 * 16 + b1 / 16) ::
      base64Char (b1 % 16 * 4 + b2 / 64) :: base64Char (b2 % 64) :: btoa rest

/-- The replace chain of the source: plus to minus, slash to underscore,
drop padding. -/
def base64UrlChar (c : Char) : Option Char :=
  if c = '+' then some '-' else if c = '/' then some '_' else
  if c = '=' then none else some c

def toBase64Url (s : List Char) : List Char := s.filterMap base64UrlChar

/-! ## SHA-256 (crypto.subtle.digest "SHA-256"), over byte lists. -/

def w32 (n : Nat) : Nat := n % 2 ^ 32

def rotr (n x : Nat) : Nat := w32 (x / 2 ^ n + x % 2 ^ n * 2 ^ (32 - n))

def shr (n x : Nat) : Nat := x / 2 ^ n

def bnot32 (x : Nat) : Nat := 2 ^ 32 - 1 - x % 2 ^ 32

def chFn (x y z : Nat) : Nat := Nat.xor (Nat.land x y) (Nat.land (bnot32 x) z)

def majFn (x y z : Nat) : Nat :=
  Nat.xor (Nat.xor (Nat.land x y) (Nat.land x z)) (Nat.land y z)

def bigSigma0 (x : Nat) : Nat := Nat.xor (Nat.xor (rotr 2 x) (rotr 13 x)) (rotr 22 x)

def bigSigma1 (x : Nat) : Nat := Nat.xor (Nat.xor (rotr 6 x) (rotr 11 x)) (rotr 25 x)

def smallSigma0 (x : Nat) : Nat := Nat.xor (Nat.xor (rotr 7 x) (rotr 18 x)) (shr 3 x)

def smallSigma1 (x : Nat) : Nat := Nat.xor (Nat.xor (rotr 17 x) (rotr 19 x)) (shr 10 x)

def sha256K : List Nat :=
  [1116352408, 1899447441, 3049323471, 3921009573, 961987163,
   1508970993, 2453635748, 2870763221, 3624381080, 310598401,
   607225278, 1426881987, 1925078388, 2162078206, 2614888103,
   3248222580, 3835390401, 4022224774, 264347078, 604807628,
   770255983, 1249150122, 1555081692, 1996064986, 2554220882,
   2821834349, 2952996808, 3210313671, 3336571891, 3584528711,
   113926993, 338241895, 666307205, 773529912, 1294757372,
   1396182291, 1695183700, 1986661051, 2177026350, 2456956037,
   2730485921, 2820302411, 3259730800, 3345764771, 3516065817,
   3600352804, 4094571909, 275423344, 430227734, 506948616,
   659060556, 883997877, 958139571, 1322822218, 1537002063,
   1747873779, 1955562222, 2024104815, 2227730452, 2361852424,
   2428436474, 2756734187, 3204031479, 3329325298]

/-- Big-endian byte expansion, most significant byte first. -/
def beBytes : Nat → Nat → List Nat
  | 0, _ => []
  | k + 1, n => beBytes k (n / 256) ++ [n % 256]

def sha256pad (msg : List Nat) : List Nat :=
  let len := msg.length
  let zeros := (64 - (len + 9) % 64) % 64
  msg ++ 0x80 :: (List.replicate zeros 0 ++ beBytes 8 (len * 8))

def bytesToWords : List Nat → List Nat
  | b0 :: b1 :: b2 :: b3 :: rest =>
      (b0 * 16777216 + b1 * 65536 + b2 * 256 + b3) :: bytesToWords rest
  | _ => []

def nextScheduleWord (ws : List Nat) : Nat :=
  w32 (smallSigma1 (ws.getD (ws.length - 2) 0) + ws.getD (ws.length - 7) 0 +
       smallSigma0 (ws.getD (ws.length - 15) 0) + ws.getD (ws.length - 16) 0)

def extendSchedule : Nat → List Nat → List Nat
  | 0, ws => ws
  | n + 1, ws => extendSchedule n (ws ++ [nextScheduleWord ws])

structure Sha256State where
  a : Nat
  b : Nat
  c : Nat
  d : Nat
  e : Nat
  f : Nat
  g : Nat
  h : Nat
deriving DecidableEq

def sha256InitState : Sha256State :=
  ⟨1779033703, 3144134277, 1013904242, 2773480762,
   1359893119, 2600822924, 528734635, 1541459225⟩

def roundStep (st : Sha256State) (kw : Nat × Nat) : Sha256State :=
  let t1 := st.h + bigSigma1 st.e + chFn st.e st.f st.g + kw.1 + kw.2
  let t2 := bigSigma0 st.a + majFn st.a st.b st.c
  ⟨w32 (t1 + t2), st.a, st.b, st.c, w32 (st.d + t1), st.e, st.f, st.g⟩

def compressChunk (st : Sha256State) (chunk : List Nat) : Sha256State :=
  let ws := extendSchedule 48 (bytesToWords chunk)
  let r := (sha256K.zip ws).foldl roundStep st
  ⟨w32 (st.a + r.a), w32 (st.b + r.b), w32 (st.c + r.c), w32 (st.d + r.d),
   w32 (st.e + r.e), w32 (st.f + r.f), w32 (st.g + r.g), w32 (st.h + r.h)⟩

def chunks64 (l : List Nat) : List (List Nat) :=
  if h : l = [] then [] else l.take 64 :: chunks64 (l.drop 64)
termination_by l.length
decreasing_by
  simp only [List.length_drop]
  have hl : 0 < l.length := List.length_pos.mpr h
  omega

def sha256 (msg : List Nat) : List Nat :=
  let fin := (chunks64 (sha256pad msg)).foldl compressChunk sha256InitState
  beBytes 4 fin.a ++ beBytes 4 fin.b ++ beBytes 4 fin.c ++ beBytes 4 fin.d ++
  beBytes 4 fin.e ++ beBytes 4 fin.f ++ beBytes 4 fin.g ++ beBytes 4 fin.h

/-! ## UTF-8 (TextEncoder) -/

def utf8Char (c : Char) : List Nat :=
  let n := c.toNat
  if n < 0x80 then [n]
  else if n < 0x800 then [0xC0 + n / 64, 0x80 + n % 64]
  else if n < 0x10000 then [0xE0 + n / 4096, 0x80 + n / 64 % 64, 0x80 + n % 64]
  else [0xF0 + n / 262144, 0x80 + n / 4096 % 64, 0x80 + n / 64 % 64, 0x80 + n % 64]

def utf8Encode (s : String) : List Nat := s.toList.flatMap utf8Char

/-! ## PKCE pair and the two request bodies (qwen_oauth_handlers.ts) -/

/-- generateCodeVerifier: base64url of the 32 random bytes; the randomness
of crypto.getRandomValues is modelled by passing the drawn bytes in. -/
def generateCodeVerifier (randomBytes : List Nat) : String :=
  ⟨toBase64Url (btoa randomBytes)⟩

/-- generateCodeChallenge: base64url of the SHA-256 digest of the UTF-8
encoded verifier. -/
def generateCodeChallenge (verifier : String) : String :=
  ⟨toBase64Url (btoa (sha256 (utf8Encode verifier)))⟩

/-- The URLSearchParams body of the device-code request, in source order. -/
def deviceCodeRequest (randomBytes : List Nat) : List (String × String) :=
  let codeVerifier := generateCodeVerifier randomBytes
  let codeChallenge := generateCodeChallenge codeVerifier
  [("client_id", QWEN_CLIENT_ID), ("scope", QWEN_SCOPE),
   ("code_challenge", codeChallenge), ("code_challenge_method", "S256")]

/-- The URLSearchParams body of the token poll request, in source order. -/
def tokenRequestBody (deviceCode codeVerifier : String) : List (String × String) :=
  [("grant_type", "urn:ietf:params:oauth:grant-type:device_code"),
   ("client_id", QWEN_CLIENT_ID),
   ("device_code", deviceCode),
   ("code_verifier", codeVerifier)]

/-- Field names of the declared QwenDeviceCodeResponse interface. -/
def qwenDeviceCodeResponseFields : List String :=
  ["device_code", "user_code", "verification_uri", "verification_uri_complete",
   "expires_in", "interval"]

/-- The device-code handler result: the parsed server JSON spread first,
then the code_verifier entry appended, mirroring the object spread. -/
def deviceCodeHandlerResultJson (randomBytes : List Nat)
    (dataJson : List (String × String)) : List (String × String) :=
  dataJson ++ [("code_verifier", generateCodeVerifier randomBytes)]

/-- startOAuthFlow reads device_code and code_verifier from the handler
result and builds the token poll from exactly those two values. -/
def startFlowTokenRequest (handlerResult : List (String × String)) :
    Option (List (String × String)) :=
  match List.lookup "device_code" handlerResult,
        List.lookup "code_verifier" handlerResult with
  | some dcVal, some cvVal => some (tokenRequestBody dcVal cvVal)
  | _, _ => none

/-! ## Token handler HTTP dispatch (qwen_oauth_handlers.ts, token handler) -/

structure HttpResponse where
  status : Nat
  statusText : String
  jsonBody : List (String × String)
deriving DecidableEq

/-- fetch sets response.ok exactly when the status is in the 200 range. -/
def responseOk (r : HttpResponse) : Bool := 200 ≤ r.status && r.status < 300

inductive TokenHandlerError where
  | oauthError (body : List (String × String))
  | genericError (message : String)
deriving DecidableEq

/-- The token handler: ok responses return the parsed body; a 400 throws
the parsed JSON error body; any other failure status throws a generic
Error built from status code and status text. -/
def tokenHandlerDispatch (r : HttpResponse) :
    Except TokenHandlerError (List (String × String)) :=
  if responseOk r then .ok r.jsonBody
  else if r.status = 400 then .error (.oauthError r.jsonBody)
  else .error (.genericError
    ("Token request failed: " ++ toString r.status ++ " " ++ r.statusText))

/-! ## The polling state machine (pollForToken of the current dialog) -/

/-- A JavaScript falsy-or on optional strings: undefined and the empty
string both fall through to the default. -/
def jsOr (a : Option String) (b : String) : String :=
  match a with
  | some s => if s = "" then b else s
  | none => b

structure PollResponseJson where
  access_token : String
  refresh_token : Option String
  token_type : String
  expires_in : Nat
  scope : String
  resource_url : Option String
deriving DecidableEq

/-- The caught poll error object: an OAuth error body has an error field;
a thrown Error has a message and possibly a code such as ECONNRESET. -/
structure PollError where
  error : Option String
  error_description : Option String
  message : Option String
  code : Option String
deriving DecidableEq

inductive PollResult where
  | success (resp : PollResponseJson)
  | failure (e : PollError)
deriving DecidableEq

/-- A settings secret as stored by updateSettings (the value wrapper). -/
structure SettingsSecret where
  value : String
deriving DecidableEq

/-- The credential handed to updateSettings on success. -/
structure Credential where
  qwenAccessToken : SettingsSecret
  qwenRefreshToken : SettingsSecret
  qwenTokenExpiry : Nat
  qwenResourceUrl : String
deriving DecidableEq

inductive FlowState where
  | Polling (deviceCode codeVerifier : String) (intervalSeconds : Nat)
  | Authorized (cred : Credential)
  | Denied (errorMsg : String)
  | Expired (errorMsg : String)
  | Error (errorMsg : String)
deriving DecidableEq

def timedOutMessage : String :=
  "Authentication timed out. The device code has expired. Please try again."

def deniedMessage : String := "Authentication was denied. Please try again."

def expiredTokenMessage : String :=
  "The authentication code has expired. Please try again."

def containsSubAux : List Char → List Char → Bool
  | _, [] => true
  | [], _ :: _ => false
  | a :: as, b :: bs => a == b && containsSubAux as bs

/-- String.prototype.includes: some suffix of the haystack starts with the
needle. -/
def containsSub : List Char → List Char → Bool
  | [], needle => containsSubAux [] needle
  | c :: t, needle => containsSubAux (c :: t) needle || containsSub t needle

/-- The network-transient test of pollForToken: message includes fetch, or
message includes network, or code is ECONNRESET. -/
def isNetworkTransient (e : PollError) : Bool :=
  (match e.message with
   | some m => containsSub m.toList "fetch".toList || containsSub m.toList "network".toList
   | none => false)
  || decide (e.code = some "ECONNRESET")

/-- One pollForToken invocation: the expiry comparison runs first and
returns before any token request; otherwise the response (or caught
error) is dispatched exactly as the branch chain of the source does.
Terminal states are absorbing: the dialog schedules no further poll. -/
def pollStep (expiry now : Nat) (st : FlowState) (r : PollResult) : FlowState :=
  match st with
  | .Polling dc cv intSec =>
    if expiry < now then .Expired timedOutMessage
    else
      match r with
      | .success resp =>
          .Authorized
            { qwenAccessToken := ⟨resp.access_token⟩,
              qwenRefreshToken := ⟨jsOr resp.refresh_token ""⟩,
              qwenTokenExpiry := now + resp.expires_in * 1000,
              qwenResourceUrl := jsOr resp.resource_url dashScopeUrl }
      | .failure e =>
          if e.error = some "authorization_pending" then .Polling dc cv intSec
          else if e.error = some "slow_down" then .Polling dc cv (intSec + 5)
          else if e.error = some "access_denied" then .Denied deniedMessage
          else if e.error = some "expired_token" then .Expired expiredTokenMessage
          else if isNetworkTransient e then .Polling dc cv intSec
          else .Error (jsOr e.error_description
            (jsOr e.error (jsOr e.message "Authentication failed")))
  | other => other

def isTerminal : FlowState → Bool
  | .Polling _ _ _ => false
  | _ => true

/-- The token request a poll step issues, if any: none once expired or
terminal, otherwise exactly one request with the carried device code and
verifier. -/
def pollRequest (expiry now : Nat) : FlowState → Option (List (String × String))
  | .Polling dc cv _ => if expiry < now then none else some (tokenRequestBody dc cv)
  | _ => none

/-- Run the polling loop over a sequence of timed responses. -/
def runPolls (expiry : Nat) : FlowState → List (Nat × PollResult) → FlowState
  | st, [] => st
  | st, p :: rest => runPolls expiry (pollStep expiry p.1 st p.2) rest

/-- The advertised expiry recorded at issuance: Date.now plus expires_in
seconds, in milliseconds. -/
def deviceCodeExpiryOf (issuedAt expiresIn : Nat) : Nat :=
  issuedAt + expiresIn * 1000

/-- A response on which the loop keeps polling: still pending, slow down,
or a failure that is none of the four OAuth codes and is network
transient. -/
def isContinuing : PollResult → Bool
  | .success _ => false
  | .failure e =>
      decide (e.error = some "authorization_pending") ||
      decide (e.error = some "slow_down") ||
      (!decide (e.error = some "access_denied") &&
       !decide (e.error = some "expired_token") &&
       isNetworkTransient e)

/-! ## Action Validator path rules.

Modelled from the spec: the Action Validator implementation (response
processor) of the repository is not under src/; only the blueprint names
the validation step. The spec states that for a path-bearing action the
path is resolved against the project root, that a path with a dot-dot
segment or an absolute path outside the root is rejected as a hard
security boundary, and that paths resolving strictly inside the root are
accepted. Paths are segment lists; an absolute path ignores the root. -/

structure PathArg where
  isAbsolute : Bool
  segments : List String
deriving DecidableEq

def hasDotDotSegment (p : PathArg) : Bool := p.segments.contains ".."

def resolveAgainst (root : List String) (p : PathArg) : List String :=
  if p.isAbsolute then p.segments else root ++ p.segments

/-- Canonicalization: dot segments vanish, a dot-dot segment pops the
previous one. -/
def canonicalizeSegments (segs : List String) : List String :=
  segs.foldl
    (fun acc s => if s = ".." then acc.dropLast else if s = "." then acc else acc ++ [s])
    []

def resolvedLocation (root : List String) (p : PathArg) : List String :=
  canonicalizeSegments (resolveAgainst root p)

def startsWithSegs : List String → List String → Bool
  | _, [] => true
  | [], _ :: _ => false
  | a :: as, b :: bs => a == b && startsWithSegs as bs

/-- Strictly inside: the root is a proper leading run of the resolved
location. -/
def strictlyInside (root resolved : List String) : Bool :=
  startsWithSegs resolved root && decide (root.length < resolved.length)

/-- Modelled from the spec: the validator accepts a path-bearing action
exactly when the path has no dot-dot segment and its resolved location is
strictly inside the project root; dot-dot traversal is rejected outright
as the hard security boundary. -/
def validateActionPath (root : List String) (p : PathArg) : Bool :=
  !hasDotDotSegment p && strictlyInside root (resolvedLocation root p)

/-! ## Shared lemmas about the polling machine -/

theorem pollStep_absorb (expiry now : Nat) (st : FlowState) (r : PollResult)
    (h : isTerminal st = true) : pollStep expiry now st r = st := by
  cases st with
  | Polling dc cv i => simp [isTerminal] at h
  | Authorized c => rfl
  | Denied m => rfl
  | Expired m => rfl
  | Error m => rfl

theorem runPolls_absorb (expiry : Nat) (items : List (Nat × PollResult))
    (st : FlowState) (h : isTerminal st = true) : runPolls expiry st items = st := by
  induction items generalizing st with
  | nil => rfl
  | cons p rest ih =>
      simp only [runPolls, pollStep_absorb expiry p.1 st p.2 h]
      exact ih st h

theorem runPolls_append (expiry : Nat) (l1 l2 : List (Nat × PollResult))
    (st : FlowState) :
    runPolls expiry st (l1 ++ l2) = runPolls expiry (runPolls expiry st l1) l2 := by
  induction l1 generalizing st with
  | nil => rfl
  | cons p rest ih =>
      simp only [List.cons_append, runPolls]
      exact ih _

theorem pollStep_continuing (expiry now : Nat) (dc cv : String) (i : Nat)
    (r : PollResult) (hnow : now ≤ expiry) (hc : isContinuing r = true) :
    pollStep expiry now (.Polling dc cv i) r = .Polling dc cv i ∨
    pollStep expiry now (.Polling dc cv i) r = .Polling dc cv (i + 5) := by
  have hexp : ¬ expiry < now := Nat.not_lt.mpr hnow
  cases r with
  | success resp => simp [isContinuing] at hc
  | failure e =>
      simp only [isContinuing, Bool.or_eq_true, Bool.and_eq_true,
        decide_eq_true_eq, Bool.not_eq_true', decide_eq_false_iff_not] at hc
      rcases hc with (h1 | h2) | ⟨⟨hnd, hne⟩, ht⟩
      · left; simp [pollStep, hexp, h1]
      · by_cases h1 : e.error = some "authorization_pending"
        · left; simp [pollStep, hexp, h1]
        · right; simp [pollStep, hexp, h1, h2]
      · by_cases h1 : e.error = some "authorization_pending"
        · left; simp [pollStep, hexp, h1]
        · by_cases h2 : e.error = some "slow_down"
          · right; simp [pollStep, hexp, h1, h2]
          · left; simp [pollStep, hexp, h1, h2, hnd, hne, ht]

theorem runPolls_continuing (expiry : Nat) (dc cv : String) :
    ∀ (items : List (Nat × PollResult)) (i : Nat),
    (∀ p ∈ items, p.1 ≤ expiry ∧ isContinuing p.2 = true) →
    ∃ i2, runPolls expiry (.Polling dc cv i) items = .Polling dc cv i2 ∧ i ≤ i2 := by
  intro items
  induction items with
  | nil => exact fun i _ => ⟨i, rfl, Nat.le_refl i⟩
  | cons p rest ih =>
      intro i h
      have hp := h p (by simp)
      have htail : ∀ q ∈ rest, q.1 ≤ expiry ∧ isContinuing q.2 = true :=
        fun q hq => h q (by simp [hq])
      rcases pollStep_continuing expiry p.1 dc cv i p.2 hp.1 hp.2 with heq | heq
      · rcases ih i htail with ⟨i2, hrun, hle⟩
        refine ⟨i2, ?_, hle⟩
        simp only [runPolls, heq]
        exact hrun
      · rcases ih (i + 5) htail with ⟨i2, hrun, hle⟩
        refine ⟨i2, ?_, by omega⟩
        simp only [runPolls, heq]
        exact hrun

theorem lookup_append_of_not_mem (key : String) (l1 l2 : List (String × String))
    (h : key ∉ l1.map Prod.fst) :
    List.lookup key (l1 ++ l2) = List.lookup key l2 := by
  induction l1 with
  | nil => rfl
  | cons p rest ih =>
      obtain ⟨k, v⟩ := p
      simp only [List.map_cons, List.mem_cons, not_or] at h
      have hk : (key == k) = false := beq_eq_false_iff_ne.mpr h.1
      simp only [List.cons_append, List.lookup, hk]
      exact ih h.2

theorem lookup_append_of_found (key : String) (l1 l2 : List (String × String))
    (v : String) (h : List.lookup key l1 = some v) :
    List.lookup key (l1 ++ l2) = some v := by
  induction l1 with
  | nil => simp [List.lookup] at h
  | cons p rest ih =>
      obtain ⟨k, w⟩ := p
      cases hk : key == k with
      | true =>
          simp only [List.lookup, hk] at h
          simp only [List.cons_append, List.lookup, hk]
          exact h
      | false =>
          simp only [List.lookup, hk] at h
          simp only [List.cons_append, List.lookup, hk]
          exact ih h

/-! ## The claims -/

/-- Claim C2: whenever the wall-clock time at a polling step exceeds the
device code advertised expiry (issuance time plus expires_in seconds),
the flow moves to the terminal timed-out state, issues no token request
at that step, and no further token request is ever issued, regardless of
what the last poll response was. -/
theorem c2_expiry_terminal (issuedAt expiresIn now : Nat) (dc cv : String)
    (i : Nat) (r : PollResult)
    (h : deviceCodeExpiryOf issuedAt expiresIn < now) :
    pollStep (deviceCodeExpiryOf issuedAt expiresIn) now (.Polling dc cv i) r =
      .Expired timedOutMessage
    ∧ pollRequest (deviceCodeExpiryOf issuedAt expiresIn) now (.Polling dc cv i) = none
    ∧ (∀ items, runPolls (deviceCodeExpiryOf issuedAt expiresIn)
        (.Expired timedOutMessage) items = .Expired timedOutMessage)
    ∧ (∀ t2, pollRequest (deviceCodeExpiryOf issuedAt expiresIn) t2
        (.Expired timedOutMessage) = none) := by
  refine ⟨?_, ?_, ?_, ?_⟩
  · simp [pollStep, h]
  · simp [pollRequest, h]
  · intro items; exact runPolls_absorb _ items _ rfl
  · intro t2; rfl

theorem c2_expiry_terminal_witness :
    pollStep (deviceCodeExpiryOf 0 1) 1001 (.Polling "devcode" "verifier" 5)
      (.failure ⟨some "authorization_pending", none, none, none⟩) =
      .Expired timedOutMessage :=
  (c2_expiry_terminal 0 1 1001 "devcode" "verifier" 5
    (.failure ⟨some "authorization_pending", none, none, none⟩) (by decide)).1

/-- Claim C3: a token-poll failure that is network transient and carries
no OAuth error code re-polls at the current interval without entering a
terminal state; and a failure moves the flow to the terminal Error state
only when it is not network transient, not authorization_pending and not
slow_down. -/
theorem c3_transient_retry (expiry now : Nat) (dc cv : String) (i : Nat)
    (e : PollError) :
    (now ≤ expiry → e.error = none → isNetworkTransient e = true →
      pollStep expiry now (.Polling dc cv i) (.failure e) = .Polling dc cv i)
    ∧ (∀ m, pollStep expiry now (.Polling dc cv i) (.failure e) = .Error m →
        isNetworkTransient e = false ∧ e.error ≠ some "authorization_pending" ∧
        e.error ≠ some "slow_down") := by
  constructor
  · intro hnow he ht
    have hexp : ¬ expiry < now := Nat.not_lt.mpr hnow
    simp [pollStep, hexp, he, ht]
  · intro m hm
    by_cases hexp : expiry < now
    · simp [pollStep, hexp] at hm
    · by_cases h1 : e.error = some "authorization_pending"
      · simp [pollStep, hexp, h1] at hm
      · by_cases h2 : e.error = some "slow_down"
        · simp [pollStep, hexp, h1, h2] at hm
        · by_cases h3 : e.error = some "access_denied"
          · simp [pollStep, hexp, h1, h2, h3] at hm
          · by_cases h4 : e.error = some "expired_token"
            · simp [pollStep, hexp, h1, h2, h3, h4] at hm
            · by_cases h5 : isNetworkTransient e = true
              · simp [pollStep, hexp, h1, h2, h3, h4, h5] at hm
              · have h5f : isNetworkTransient e = false := by
                  revert h5; cases isNetworkTransient e <;> simp
                exact ⟨h5f, h1, h2⟩

theorem c3_transient_retry_witness :
    pollStep 1000 50 (.Polling "devcode" "verifier" 5)
      (.failure ⟨none, none, some "fetch failed", none⟩) =
      .Polling "devcode" "verifier" 5 :=
  (c3_transient_retry 1000 50 "devcode" "verifier" 5
    ⟨none, none, some "fetch failed", none⟩).1 (by decide) rfl (by decide)

/-- Claim C4: any poll run of continuing responses (all before expiry)
followed by an access_denied failure ends in the terminal Denied state,
having stayed in Polling (never Authorized, no credential) on every
prefix, and absorbing any later responses; a Denied state issues no
further token request. -/
theorem c4_denied_terminal (expiry : Nat) (dc cv : String) (i : Nat)
    (items : List (Nat × PollResult)) (t : Nat) (e : PollError)
    (rest : List (Nat × PollResult))
    (hitems : ∀ p ∈ items, p.1 ≤ expiry ∧ isContinuing p.2 = true)
    (ht : t ≤ expiry) (he : e.error = some "access_denied") :
    (∀ pre post, items = pre ++ post →
      ∃ i2, runPolls expiry (.Polling dc cv i) pre = .Polling dc cv i2)
    ∧ runPolls expiry (.Polling dc cv i) (items ++ (t, .failure e) :: rest) =
        .Denied deniedMessage
    ∧ (∀ t2, pollRequest expiry t2 (.Denied deniedMessage) = none) := by
  refine ⟨?_, ?_, ?_⟩
  · intro pre post hsplit
    have hpre : ∀ p ∈ pre, p.1 ≤ expiry ∧ isContinuing p.2 = true := by
      intro p hp
      exact hitems p (by rw [hsplit]; exact List.mem_append_left _ hp)
    rcases runPolls_continuing expiry dc cv pre i hpre with ⟨i2, hrun, _⟩
    exact ⟨i2, hrun⟩
  · rcases runPolls_continuing expiry dc cv items i hitems with ⟨i2, hrun, _⟩
    rw [runPolls_append, hrun]
    have hexp : ¬ expiry < t := Nat.not_lt.mpr ht
    have hstep : pollStep expiry t (.Polling dc cv i2) (.failure e) =
        .Denied deniedMessage := by
      simp [pollStep, hexp, he]
    simp only [runPolls, hstep]
    exact runPolls_absorb expiry rest _ rfl
  · intro t2; rfl

theorem c4_denied_terminal_witness :
    runPolls 1000 (.Polling "dev" "ver" 5)
      ([(0, .failure ⟨some "authorization_pending", none, none, none⟩),
        (5, .failure ⟨some "authorization_pending", none, none, none⟩),
        (10, .failure ⟨some "authorization_pending", none, none, none⟩),
        (15, .failure ⟨some "authorization_pending", none, none, none⟩),
        (20, .failure ⟨some "authorization_pending", none, none, none⟩)] ++
       (25, .failure ⟨some "access_denied", none, none, none⟩) ::
       [(30, .failure ⟨some "authorization_pending", none, none, none⟩)]) =
      .Denied deniedMessage :=
  (c4_denied_terminal 1000 "dev" "ver" 5
    [(0, .failure ⟨some "authorization_pending", none, none, none⟩),
     (5, .failure ⟨some "authorization_pending", none, none, none⟩),
     (10, .failure ⟨some "authorization_pending", none, none, none⟩),
     (15, .failure ⟨some "authorization_pending", none, none, none⟩),
     (20, .failure ⟨some "authorization_pending", none, none, none⟩)]
    25 ⟨some "access_denied", none, none, none⟩
    [(30, .failure ⟨some "authorization_pending", none, none, none⟩)]
    (by decide) (by decide) rfl).2.1

/-- Claim C5: across Polling transitions the interval never decreases;
on slow_down (before expiry) it becomes exactly interval plus five, and
on any other continuing response it is unchanged. -/
theorem c5_interval_monotone (expiry now : Nat) (dc cv : String) (i : Nat)
    (r : PollResult) :
    (∀ dc2 cv2 i2, pollStep expiry now (.Polling dc cv i) r = .Polling dc2 cv2 i2 →
        i ≤ i2)
    ∧ (∀ e, now ≤ expiry → r = .failure e → e.error = some "slow_down" →
        pollStep expiry now (.Polling dc cv i) r = .Polling dc cv (i + 5))
    ∧ (∀ e, now ≤ expiry → r = .failure e → isContinuing r = true →
        e.error ≠ some "slow_down" →
        pollStep expiry now (.Polling dc cv i) r = .Polling dc cv i) := by
  refine ⟨?_, ?_, ?_⟩
  · intro dc2 cv2 i2 h
    by_cases hexp : expiry < now
    · simp [pollStep, hexp] at h
    · cases r with
      | success resp => simp [pollStep, hexp] at h
      | failure e =>
          by_cases h1 : e.error = some "authorization_pending"
          · simp [pollStep, hexp, h1] at h
            omega
          · by_cases h2 : e.error = some "slow_down"
            · simp [pollStep, hexp, h1, h2] at h
              omega
            · by_cases h3 : e.error = some "access_denied"
              · simp [pollStep, hexp, h1, h2, h3] at h
              · by_cases h4 : e.error = some "expired_token"
                · simp [pollStep, hexp, h1, h2, h3, h4] at h
                · by_cases h5 : isNetworkTransient e = true
                  · simp [pollStep, hexp, h1, h2, h3, h4, h5] at h
                    omega
                  · simp [pollStep, hexp, h1, h2, h3, h4, h5] at h
  · intro e hnow hr he
    subst hr
    have hexp : ¬ expiry < now := Nat.not_lt.mpr hnow
    simp [pollStep, hexp, he]
  · intro e hnow hr hc hs
    subst hr
    have hexp : ¬ expiry < now := Nat.not_lt.mpr hnow
    simp only [isContinuing, Bool.or_eq_true, Bool.and_eq_true,
      decide_eq_true_eq, Bool.not_eq_true', decide_eq_false_iff_not] at hc
    rcases hc with (h1 | h2) | ⟨⟨hnd, hne⟩, ht⟩
    · simp [pollStep, hexp, h1]
    · exact absurd h2 hs
    · by_cases h1 : e.error = some "authorization_pending"
      · simp [pollStep, hexp, h1]
      · simp [pollStep, hexp, h1, hs, hnd, hne, ht]

theorem c5_interval_monotone_witness :
    pollStep 1000 50 (.Polling "dev" "ver" 5)
      (.failure ⟨some "slow_down", none, none, none⟩) = .Polling "dev" "ver" 10 :=
  (c5_interval_monotone 1000 50 "dev" "ver" 5
    (.failure ⟨some "slow_down", none, none, none⟩)).2.1
    ⟨some "slow_down", none, none, none⟩ (by decide) rfl rfl

/-- Claim C6: an authorization_pending failure before expiry keeps the
flow in Polling with the same interval, device code and verifier; the
state is not terminal, and the next poll from it issues the token
request with the same device code and verifier. -/
theorem c6_pending_repoll (expiry now : Nat) (dc cv : String) (i : Nat)
    (e : PollError) (hnow : now ≤ expiry)
    (he : e.error = some "authorization_pending") :
    pollStep expiry now (.Polling dc cv i) (.failure e) = .Polling dc cv i
    ∧ isTerminal (pollStep expiry now (.Polling dc cv i) (.failure e)) = false
    ∧ (∀ t2, t2 ≤ expiry →
        pollRequest expiry t2 (pollStep expiry now (.Polling dc cv i) (.failure e)) =
          some (tokenRequestBody dc cv)) := by
  have hexp : ¬ expiry < now := Nat.not_lt.mpr hnow
  have hmain : pollStep expiry now (.Polling dc cv i) (.failure e) =
      .Polling dc cv i := by
    simp [pollStep, hexp, he]
  refine ⟨hmain, by rw [hmain]; rfl, ?_⟩
  intro t2 ht2
  rw [hmain]
  simp [pollRequest, Nat.not_lt.mpr ht2]

theorem c6_pending_repoll_witness :
    pollStep 1000 10 (.Polling "dev" "ver" 5)
      (.failure ⟨some "authorization_pending", none, none, none⟩) =
      .Polling "dev" "ver" 5 :=
  (c6_pending_repoll 1000 10 "dev" "ver" 5
    ⟨some "authorization_pending", none, none, none⟩ (by decide) rfl).1

/-- Claim C7: the device-code request body carries exactly client_id,
scope, code_challenge and code_challenge_method S256, with the challenge
equal to the base64url encoding of the SHA-256 digest of the generated
verifier; the token poll body carries exactly grant_type, client_id,
device_code and code_verifier. -/
theorem c7_request_fields (rb : List Nat) (dc cv : String) :
    deviceCodeRequest rb =
      [("client_id", QWEN_CLIENT_ID), ("scope", QWEN_SCOPE),
       ("code_challenge", generateCodeChallenge (generateCodeVerifier rb)),
       ("code_challenge_method", "S256")]
    ∧ (deviceCodeRequest rb).map Prod.fst =
        ["client_id", "scope", "code_challenge", "code_challenge_method"]
    ∧ generateCodeChallenge (generateCodeVerifier rb) =
        String.mk (toBase64Url (btoa (sha256 (utf8Encode (generateCodeVerifier rb)))))
    ∧ tokenRequestBody dc cv =
        [("grant_type", "urn:ietf:params:oauth:grant-type:device_code"),
         ("client_id", QWEN_CLIENT_ID), ("device_code", dc), ("code_verifier", cv)]
    ∧ (tokenRequestBody dc cv).map Prod.fst =
        ["grant_type", "client_id", "device_code", "code_verifier"] :=
  ⟨rfl, rfl, rfl, rfl, rfl⟩

/-- Claim C8: a successful token response before expiry moves the flow to
the terminal Authorized state carrying the credential handed to
updateSettings: the access token, the refresh token defaulting to the
empty string, expiry equal to the current time plus expires_in seconds,
and the resource URL defaulting to the DashScope URL; the state absorbs
any later response and issues no further token request. -/
theorem c8_success_credential (expiry now : Nat) (dc cv : String) (i : Nat)
    (resp : PollResponseJson) (hnow : now ≤ expiry) :
    pollStep expiry now (.Polling dc cv i) (.success resp) =
      .Authorized
        { qwenAccessToken := ⟨resp.access_token⟩,
          qwenRefreshToken := ⟨jsOr resp.refresh_token ""⟩,
          qwenTokenExpiry := now + resp.expires_in * 1000,
          qwenResourceUrl := jsOr resp.resource_url dashScopeUrl }
    ∧ (resp.refresh_token = none → jsOr resp.refresh_token "" = "")
    ∧ (resp.resource_url = none → jsOr resp.resource_url dashScopeUrl = dashScopeUrl)
    ∧ isTerminal (pollStep expiry now (.Polling dc cv i) (.success resp)) = true
    ∧ (∀ items cred, runPolls expiry (.Authorized cred) items = .Authorized cred)
    ∧ (∀ t2 cred, pollRequest expiry t2 (.Authorized cred) = none) := by
  have hexp : ¬ expiry < now := Nat.not_lt.mpr hnow
  have hmain : pollStep expiry now (.Polling dc cv i) (.success resp) =
      .Authorized
        { qwenAccessToken := ⟨resp.access_token⟩,
          qwenRefreshToken := ⟨jsOr resp.refresh_token ""⟩,
          qwenTokenExpiry := now + resp.expires_in * 1000,
          qwenResourceUrl := jsOr resp.resource_url dashScopeUrl } := by
    simp [pollStep, hexp]
  refine ⟨hmain, ?_, ?_, by rw [hmain]; rfl, ?_, ?_⟩
  · intro h; rw [h]; rfl
  · intro h; rw [h]; rfl
  · intro items cred; exact runPolls_absorb _ items _ rfl
  · intro t2 cred; rfl

theorem c8_success_credential_witness :
    pollStep 1000000 5000 (.Polling "dev" "ver" 5)
      (.success ⟨"AT", none, "Bearer", 3600, "openid", none⟩) =
      .Authorized ⟨⟨"AT"⟩, ⟨""⟩, 3605000, dashScopeUrl⟩ :=
  ((c8_success_credential 1000000 5000 "dev" "ver" 5
      ⟨"AT", none, "Bearer", 3600, "openid", none⟩ (by decide)).1).trans (by decide)

/-- Claim C9: the device-code handler result carries, in addition to the
server response fields, a code_verifier entry holding the generated
verifier, although the declared QwenDeviceCodeResponse interface omits
that field; the challenge sent in the request is the challenge of that
same verifier, and the token poll built by startOAuthFlow uses exactly
the returned verifier. -/
theorem c9_verifier_returned (rb : List Nat) (dataJson : List (String × String))
    (dc : String) :
    "code_verifier" ∉ qwenDeviceCodeResponseFields
    ∧ ("code_verifier" ∉ dataJson.map Prod.fst →
        List.lookup "code_verifier" (deviceCodeHandlerResultJson rb dataJson) =
          some (generateCodeVerifier rb))
    ∧ List.lookup "code_challenge" (deviceCodeRequest rb) =
        some (generateCodeChallenge (generateCodeVerifier rb))
    ∧ ("code_verifier" ∉ dataJson.map Prod.fst →
        List.lookup "device_code" dataJson = some dc →
        startFlowTokenRequest (deviceCodeHandlerResultJson rb dataJson) =
          some (tokenRequestBody dc (generateCodeVerifier rb))) := by
  refine ⟨by decide, ?_, ?_, ?_⟩
  · intro h
    rw [deviceCodeHandlerResultJson, lookup_append_of_not_mem _ _ _ h]
    rfl
  · rfl
  · intro h1 h2
    have hv : List.lookup "code_verifier" (deviceCodeHandlerResultJson rb dataJson) =
        some (generateCodeVerifier rb) := by
      rw [deviceCodeHandlerResultJson, lookup_append_of_not_mem _ _ _ h1]
      rfl
    have hd : List.lookup "device_code" (deviceCodeHandlerResultJson rb dataJson) =
        some dc := by
      rw [deviceCodeHandlerResultJson]
      exact lookup_append_of_found _ _ _ _ h2
    simp only [startFlowTokenRequest, hd, hv]

theorem c9_verifier_returned_witness :
    startFlowTokenRequest
      (deviceCodeHandlerResultJson [0] [("device_code", "DC"), ("user_code", "UC")]) =
      some (tokenRequestBody "DC" (generateCodeVerifier [0])) :=
  (c9_verifier_returned [0] [("device_code", "DC"), ("user_code", "UC")] "DC").2.2.2
    (by decide) (by decide)

/-- Claim C10: the token handler throws the parsed JSON error body
(preserving its error field) exactly when the response status is 400;
any other failing status throws a generic Error built from the status
code and status text, so OAuth polling error codes can reach the
frontend only from a 400 response. -/
theorem c10_error_propagation (r : HttpResponse) :
    (tokenHandlerDispatch r = .error (.oauthError r.jsonBody) ↔ r.status = 400)
    ∧ (responseOk r = false → r.status ≠ 400 →
        tokenHandlerDispatch r = .error (.genericError
          ("Token request failed: " ++ toString r.status ++ " " ++ r.statusText)))
    ∧ (∀ body, tokenHandlerDispatch r = .error (.oauthError body) →
        body = r.jsonBody ∧
        List.lookup "error" body = List.lookup "error" r.jsonBody) := by
  refine ⟨⟨?_, ?_⟩, ?_, ?_⟩
  · intro h
    by_cases hok : responseOk r
    · simp [tokenHandlerDispatch, hok] at h
    · by_cases h4 : r.status = 400
      · exact h4
      · simp [tokenHandlerDispatch, hok, h4] at h
  · intro h4
    have hok : responseOk r = false := by
      simp [responseOk, h4]
    simp [tokenHandlerDispatch, hok, h4]
  · intro hok h4
    simp [tokenHandlerDispatch, hok, h4]
  · intro body h
    by_cases hok : responseOk r
    · simp [tokenHandlerDispatch, hok] at h
    · by_cases h4 : r.status = 400
      · simp [tokenHandlerDispatch, hok, h4] at h
        exact ⟨h.symm, by rw [h]⟩
      · simp [tokenHandlerDispatch, hok, h4] at h

theorem c10_error_propagation_witness :
    tokenHandlerDispatch ⟨500, "Internal Server Error", [("error", "server_error")]⟩ =
      .error (.genericError
        ("Token request failed: " ++ toString (500 : Nat) ++ " " ++
          "Internal Server Error")) :=
  (c10_error_propagation ⟨500, "Internal Server Error", [("error", "server_error")]⟩).2.1
    (by decide) (by decide)

/-- Claim C1 counterexample: the relative path a/../b resolves to a
location strictly inside the project root, yet the modelled validator
rejects it because it contains a dot-dot segment; so the acceptance
clause of the claim fails as literally stated. -/
theorem c1_path_validation_counterexample :
    hasDotDotSegment ⟨false, ["a", "..", "b"]⟩ = true
    ∧ strictlyInside ["home", "user", "project"]
        (resolvedLocation ["home", "user", "project"] ⟨false, ["a", "..", "b"]⟩) = true
    ∧ validateActionPath ["home", "user", "project"] ⟨false, ["a", "..", "b"]⟩ =
        false := by
  decide

/-- Claim C1 (amended): the validator rejects a path-bearing action when
the path contains a dot-dot segment or its resolved location is not
strictly inside the project root, and accepts it when the path contains
no dot-dot segment and its resolved location is strictly inside the
root; every accepted path resolves under the root. -/
theorem c1_path_validation_amended (root : List String) (p : PathArg) :
    (hasDotDotSegment p = true → validateActionPath root p = false)
    ∧ (strictlyInside root (resolvedLocation root p) = false →
        validateActionPath root p = false)
    ∧ (hasDotDotSegment p = false →
        strictlyInside root (resolvedLocation root p) = true →
        validateActionPath root p = true)
    ∧ (validateActionPath root p = true →
        startsWithSegs (resolvedLocation root p) root = true) := by
  refine ⟨?_, ?_, ?_, ?_⟩
  · intro h; simp [validateActionPath, h]
  · intro h; simp [validateActionPath, h]
  · intro h1 h2; simp [validateActionPath, h1, h2]
  · intro h
    simp only [validateActionPath, Bool.and_eq_true, Bool.not_eq_true'] at h
    have h2 := h.2
    simp only [strictlyInside, Bool.and_eq_true] at h2
    exact h2.1

theorem c1_path_validation_amended_witness :
    validateActionPath ["home", "user", "project"] ⟨false, ["src", "main.ts"]⟩ = true :=
  (c1_path_validation_amended ["home", "user", "project"]
    ⟨false, ["src", "main.ts"]⟩).2.2.1 (by decide) (by decide)
